import Mathlib

/-!
Verification of the dapp session / transaction lifecycle controller of the
`solidity-smart-contract` repository (the `Dapp` React function component,
`frontend/src/components`). The component's mutable state (React `useState`
hooks and `useRef` cells) is embedded as a single record `DappState`, together
with the browser timer table (`activeTimers`, `nextTimerId`) and the count of
wallet event handlers registered through `window.ethereum.on`. Each source
function becomes a state transformer; results of external asynchronous calls
(wallet address, network id, contract reads, transaction receipts) are passed
in as explicit arguments.
-/

namespace Dapp

/-- A JavaScript error value as the component observes it: an optional numeric
`code` field (ethers/MetaMask errors carry one, a plain `new Error` does not)
and a `message`. -/
structure JsError where
  code : Option Int
  message : String
deriving Repr, DecidableEq

/-- The `{ name, symbol }` record stored by `setTokenData`. -/
structure TokenData where
  name : String
  symbol : String
deriving Repr, DecidableEq

/-- The component state of the `Dapp` function component, plus the ambient
browser/wallet resources it manipulates:

* `token` — the `token` ref (`token.current`), holding the contract address the
  ethers `Contract` was built from (`none` before `initializeEthers` ran);
* `pollDataInterval` — the `pollDataInterval` ref: the id of the interval timer
  the poller believes it owns;
* `myAddress` — the `myAddress` ref (`myAddress.current`);
* `tokenData`, `balance`, `txBeingSent`, `transactionError`, `networkError` —
  the five `useState` hooks;
* `activeTimers`, `nextTimerId` — the browser's table of live interval timers,
  with fresh ids drawn from the counter;
* `accountsChangedHandlers`, `networkChangedHandlers` — how many callbacks have
  been registered via `window.ethereum.on("accountsChanged", …)` and
  `window.ethereum.on("networkChanged", …)`. -/
structure DappState where
  token : Option String
  pollDataInterval : Option Nat
  myAddress : Option String
  tokenData : Option TokenData
  balance : Option Nat
  txBeingSent : Option String
  transactionError : Option JsError
  networkError : Option String
  activeTimers : List Nat
  nextTimerId : Nat
  accountsChangedHandlers : Nat
  networkChangedHandlers : Nat
deriving Repr, DecidableEq

/-- `const HARDHAT_NETWORK_ID = "31337"`. -/
def HARDHAT_NETWORK_ID : String := "31337"

/-- `const ERROR_CODE_TX_REJECTED_BY_USER = 4001`. -/
def ERROR_CODE_TX_REJECTED_BY_USER : Int := 4001

/-- Browser `setInterval`: allocates a fresh timer id, marks it active, and
returns it. -/
def jsSetInterval (s : DappState) : DappState × Nat :=
  ({ s with
      activeTimers := s.nextTimerId :: s.activeTimers,
      nextTimerId := s.nextTimerId + 1 },
    s.nextTimerId)

/-- Browser `clearInterval`: cancels the given timer; `clearInterval(undefined)`
and clearing an already-cancelled id are no-ops. -/
def jsClearInterval (s : DappState) (ref : Option Nat) : DappState :=
  match ref with
  | none => s
  | some id => { s with activeTimers := s.activeTimers.erase id }

/-- `updateBalance`: awaits `token.current.balanceOf(myAddress.current)` and
stores the result with `setBalance`. The outcome of the contract read is the
`readRes` argument. The source has no `try`/`catch` here, so a failed read
changes nothing and the rejection propagates to the caller (second component).
-/
def updateBalance (s : DappState) (readRes : Except JsError Nat) :
    DappState × Option JsError :=
  match readRes with
  | Except.ok b => ({ s with balance := some b }, none)
  | Except.error e => (s, some e)

/-- A poll tick: the interval callback `() => updateBalance()` is invoked with
nobody awaiting it, so a rejected read is simply an unhandled rejection and
only the state effect (if any) remains. -/
def pollTick (s : DappState) (readRes : Except JsError Nat) : DappState :=
  (updateBalance s readRes).1

/-- `startPollingData`: `pollDataInterval.current = setInterval(() =>
updateBalance(), 1000); updateBalance();`. Note the source overwrites the ref
without clearing any previously stored interval. The immediate first refresh is
`updateBalance()` un-awaited, i.e. a `pollTick`. -/
def startPollingData (s : DappState) (readRes : Except JsError Nat) : DappState :=
  let p := jsSetInterval s
  pollTick { p.1 with pollDataInterval := some p.2 } readRes

/-- `stopPollingData`: `clearInterval(pollDataInterval.current);
pollDataInterval.current = undefined;`. -/
def stopPollingData (s : DappState) : DappState :=
  { jsClearInterval s s.pollDataInterval with pollDataInterval := none }

/-- `getTokenData`: awaits `token.current.name()` / `.symbol()` and stores them
with `setTokenData`; the values read from the contract are the arguments. -/
def getTokenData (s : DappState) (name symbol : String) : DappState :=
  { s with tokenData := some { name := name, symbol := symbol } }

/-- `initializeEthers` in the source: builds the ethers `Contract` from the
configured contract address and stores it in `token.current`. -/
def setupEthers (s : DappState) (contractAddr : String) : DappState :=
  { s with token := some contractAddr }

/-- `initialize(userAddress)` in the source: stores the address in the
`myAddress` ref, then runs `initializeEthers`, `getTokenData`,
`startPollingData`. -/
def setupDapp (s : DappState) (userAddress contractAddr name symbol : String)
    (readRes : Except JsError Nat) : DappState :=
  startPollingData
    (getTokenData
      (setupEthers { s with myAddress := some userAddress } contractAddr)
      name symbol)
    readRes

/-- `checkNetwork`: returns `true` when `window.ethereum.networkVersion`
equals `HARDHAT_NETWORK_ID`; otherwise calls
`setNetworkError("Please connect Metamask to Localhost:8545")` and returns
`false`. -/
def checkNetwork (s : DappState) (networkVersion : String) : DappState × Bool :=
  if networkVersion = HARDHAT_NETWORK_ID then (s, true)
  else ({ s with networkError := some "Please connect Metamask to Localhost:8545" },
    false)

/-- The external data a `connectWallet` call observes: the address returned by
`window.ethereum.enable()`, the wallet's `networkVersion`, the configured
contract address, the token name/symbol read from the contract, and the result
of the first balance read. -/
structure WalletEnv where
  address : String
  networkVersion : String
  contractAddr : String
  tokenName : String
  tokenSymbol : String
  readRes : Except JsError Nat
deriving Repr

/-- `connectWallet`: awaits `window.ethereum.enable()`, returns early if
`checkNetwork()` fails, otherwise runs `initialize(myAddress)` and registers
one `accountsChanged` and one `networkChanged` handler via
`window.ethereum.on` (the source never deregisters handlers). -/
def connectWallet (s : DappState) (env : WalletEnv) : DappState :=
  let c := checkNetwork s env.networkVersion
  if c.2 then
    let s2 := setupDapp c.1 env.address env.contractAddr env.tokenName
      env.tokenSymbol env.readRes
    { s2 with
        accountsChangedHandlers := s2.accountsChangedHandlers + 1,
        networkChangedHandlers := s2.networkChangedHandlers + 1 }
  else c.1

/-- `resetState`: sets `tokenData`, `balance`, `txBeingSent`,
`transactionError`, `networkError` to `null`. It does not touch the
`myAddress` or `token` refs, the timer table, or the registered handlers. -/
def resetState (s : DappState) : DappState :=
  { s with
      tokenData := none, balance := none, txBeingSent := none,
      transactionError := none, networkError := none }

/-- The `networkChanged` handler registered in `connectWallet`:
`stopPollingData(); resetState();`. -/
def onNetworkChanged (s : DappState) : DappState :=
  resetState (stopPollingData s)

/-- The `accountsChanged` handler registered in `connectWallet`:
`stopPollingData()`, then `resetState()` if the new address is `undefined`,
else `initialize(newAddress)`. -/
def onAccountsChanged (s : DappState) (newAddress : Option String)
    (contractAddr name symbol : String) (readRes : Except JsError Nat) :
    DappState :=
  let s1 := stopPollingData s
  match newAddress with
  | none => resetState s1
  | some a => setupDapp s1 a contractAddr name symbol readRes

/-- `dismissTransactionError`: `setTransactionError(null)`. -/
def dismissTransactionError (s : DappState) : DappState :=
  { s with transactionError := none }

/-- `dismissNetworkError`: `setNetworkError(null)`. -/
def dismissNetworkError (s : DappState) : DappState :=
  { s with networkError := none }

/-- The error thrown by `throw new Error("Transaction failed")` on a status-0
receipt: a plain `Error`, so its `code` field is absent. -/
def transactionFailedError : JsError :=
  { code := none, message := "Transaction failed" }

/-- What the chain does with one `transferTokens` call: either the
`token.current.transfer(to, amount)` call itself rejects (`rejected`, e.g.
MetaMask code 4001 when the user declines signing), or it resolves with a
transaction whose receipt `tx.wait()` eventually carries `receiptStatus`, and
— when the receipt status is nonzero — the follow-up `updateBalance()` read
resolves to `readRes`. -/
inductive TransferEnv where
  | rejected (e : JsError)
  | submitted (hash : String) (receiptStatus : Nat) (readRes : Except JsError Nat)
deriving Repr

/-- `transferTokens(to, amount)`, translated block by block:

```js
try {
  dismissTransactionError();
  const tx = await token.current.transfer(to, amount);
  setTxBeingSent(tx.hash);
  const receipt = await tx.wait();
  if (receipt.status === 0) { throw new Error("Transaction failed"); }
  await updateBalance();
} catch (error) {
  if (error.code === ERROR_CODE_TX_REJECTED_BY_USER) { return; }
  setTransactionError(error);
} finally {
  setTxBeingSent(null);
}
```

The pair `tryRes` is the state after the `try` block together with the error
it threw, if any; the `catch` and `finally` blocks follow. -/
def transferTokens (s : DappState) (toAddr : String) (amount : Nat)
    (env : TransferEnv) : DappState :=
  let s0 := dismissTransactionError s
  let tryRes : DappState × Option JsError :=
    match env with
    | TransferEnv.rejected e => (s0, some e)
    | TransferEnv.submitted hash receiptStatus readRes =>
      let s1 := { s0 with txBeingSent := some hash }
      if receiptStatus = 0 then (s1, some transactionFailedError)
      else updateBalance s1 readRes
  let s2 :=
    match tryRes.2 with
    | none => tryRes.1
    | some e =>
      if e.code = some ERROR_CODE_TX_REJECTED_BY_USER then tryRes.1
      else { tryRes.1 with transactionError := some e }
  { s2 with txBeingSent := none }

/-- The cleanup returned by the component's `useEffect(() => () =>
stopPollingData(), [])`: on unmount, exactly `stopPollingData()` runs. -/
def unmountCleanup (s : DappState) : DappState :=
  stopPollingData s

/-- A start/stop operation on the Balance Poller; `start` carries the result of
its immediate first balance read. -/
inductive PollerOp where
  | start (readRes : Except JsError Nat)
  | stop
deriving Repr

/-- Run a sequence of poller operations. -/
def runPoller : DappState → List PollerOp → DappState
  | s, [] => s
  | s, PollerOp.start r :: ops => runPoller (startPollingData s r) ops
  | s, PollerOp.stop :: ops => runPoller (stopPollingData s) ops

/-- Iterate `connectWallet` `n` times against a fixed wallet environment. -/
def connectRepeat : Nat → DappState → WalletEnv → DappState
  | 0, s, _ => s
  | n + 1, s, env => connectRepeat n (connectWallet s env) env

/-- The component's initial state: every hook and ref empty, no live timers,
no registered handlers. -/
def dappInit : DappState :=
  { token := none, pollDataInterval := none, myAddress := none,
    tokenData := none, balance := none, txBeingSent := none,
    transactionError := none, networkError := none,
    activeTimers := [], nextTimerId := 0,
    accountsChangedHandlers := 0, networkChangedHandlers := 0 }

/-- A wallet environment on the accepted network: address `0xAA`, token
`Foo (FOO)`, first balance read 100. -/
def envGood : WalletEnv :=
  { address := "0xAA", networkVersion := "31337", contractAddr := "0xC0FFEE",
    tokenName := "Foo", tokenSymbol := "FOO", readRes := Except.ok 100 }

/-- The state after one successful connect from the initial state. -/
def sConnected : DappState := connectWallet dappInit envGood

/-- A representative node-level RPC failure. -/
def rpcErr : JsError := { code := some (-32603), message := "could not read balance" }

/-- The MetaMask error raised when the user declines to sign (code 4001). -/
def userRejectedErr : JsError :=
  { code := some 4001, message := "User denied transaction signature" }

/-- A wallet environment on a network other than the accepted one. -/
def envWrongNet : WalletEnv := { envGood with networkVersion := "1" }

/-- Frame lemma: `stopPollingData` clears the poller ref and touches nothing
except the timer table. -/
theorem stopPollingData_frame (s : DappState) :
    (stopPollingData s).token = s.token ∧
    (stopPollingData s).myAddress = s.myAddress ∧
    (stopPollingData s).tokenData = s.tokenData ∧
    (stopPollingData s).balance = s.balance ∧
    (stopPollingData s).txBeingSent = s.txBeingSent ∧
    (stopPollingData s).transactionError = s.transactionError ∧
    (stopPollingData s).networkError = s.networkError ∧
    (stopPollingData s).accountsChangedHandlers = s.accountsChangedHandlers ∧
    (stopPollingData s).networkChangedHandlers = s.networkChangedHandlers ∧
    (stopPollingData s).pollDataInterval = none := by
  cases h : s.pollDataInterval <;>
    simp [stopPollingData, jsClearInterval, h]

/-- `stopPollingData` cancels the timer the poller references (assuming the
browser's timer table has no duplicate ids, which fresh allocation
guarantees). -/
theorem stopPollingData_kills_ref (s : DappState) (id : Nat)
    (h : s.pollDataInterval = some id) (hnd : s.activeTimers.Nodup) :
    id ∉ (stopPollingData s).activeTimers := by
  have hat : (stopPollingData s).activeTimers = s.activeTimers.erase id := by
    simp [stopPollingData, jsClearInterval, h]
  rw [hat]
  exact hnd.not_mem_erase

/-- Claim C1, counterexample: starting the poller twice in a row from the
initial state leaves two interval timers active — `startPollingData` does not
stop the previously created timer, contradicting "at most one interval timer
is active at any instant". -/
theorem c1_counterexample :
    ¬ ((runPoller dappInit
      [PollerOp.start (Except.ok 0), PollerOp.start (Except.ok 0)]).activeTimers.length ≤ 1) := by
  decide

/-- Claim C1 (amended): calling `start` while the poller is already running
does **not** stop the previously created timer. The old timer stays active,
the ref is overwritten with the fresh timer's id, and at least two timers are
then active — the previous timer is leaked. -/
theorem c1_start_leaks_previous_timer (s : DappState) (r : Except JsError Nat)
    (id : Nat) (hrun : s.pollDataInterval = some id)
    (hact : id ∈ s.activeTimers) :
    id ∈ (startPollingData s r).activeTimers ∧
    (startPollingData s r).pollDataInterval = some s.nextTimerId ∧
    s.nextTimerId ∈ (startPollingData s r).activeTimers ∧
    2 ≤ (startPollingData s r).activeTimers.length := by
  have hlen : 1 ≤ s.activeTimers.length :=
    List.length_pos.mpr (List.ne_nil_of_mem hact)
  refine ⟨?_, ?_, ?_, ?_⟩ <;>
    cases r <;>
      simp [startPollingData, jsSetInterval, pollTick, updateBalance, hact] <;>
        omega

/-- Witness for C1's amended theorem: after one `start` from the initial
state the poller references the live timer 0; a second `start` leaves at
least two timers active. -/
theorem c1_start_leaks_previous_timer_witness :
    2 ≤ (startPollingData (runPoller dappInit [PollerOp.start (Except.ok 0)])
      (Except.ok 0)).activeTimers.length :=
  (c1_start_leaks_previous_timer
    (runPoller dappInit [PollerOp.start (Except.ok 0)]) (Except.ok 0) 0
    (by decide) (by decide)).2.2.2

/-- Claim C2, counterexample: in a freshly connected session (both error
fields `none`, timer 0 live), a poll refresh whose balance read fails leaves
the state entirely unchanged — in particular no error is surfaced through
`transactionError` or `networkError`, contradicting "the error is surfaced
via the Session Controller's error channel". -/
theorem c2_counterexample :
    pollTick sConnected (Except.error rpcErr) = sConnected ∧
    sConnected.transactionError = none ∧
    sConnected.networkError = none ∧
    sConnected.pollDataInterval = some 0 := by
  decide

/-- Claim C2 (amended): a poll refresh whose balance read fails does not stop
the poller — the timer table, the poller ref and the whole state are
unchanged, so the periodic schedule continues — but the error is not surfaced
anywhere: `updateBalance` has no error handling, so the rejection is simply
dropped and neither error field is set. -/
theorem c2_failed_refresh_changes_nothing (s : DappState) (e : JsError) :
    pollTick s (Except.error e) = s := rfl

/-- Claim C3, counterexample: after a successful connect as `0xAA`, the
network-change handler runs `stopPollingData(); resetState();`, but
`resetState` never clears the `myAddress` ref, so the resulting state still
records the connected address and is not the initial Disconnected state. -/
theorem c3_counterexample :
    (onNetworkChanged sConnected).myAddress = some "0xAA" ∧
    dappInit.myAddress = none ∧
    onNetworkChanged sConnected ≠ dappInit := by
  decide

/-- Claim C3 (amended): a network-change event stops the poller (the
referenced timer is cancelled, the ref cleared) and clears TokenInfo,
Balance, the pending transaction hash and both error fields in the same
handler invocation — but the connected address (`myAddress` ref) and the
contract-client ref (`token`) are **not** cleared, so the session state does
not equal the initial Disconnected state. -/
theorem c3_network_change_resets_all_but_address (s : DappState) (id : Nat)
    (hrun : s.pollDataInterval = some id) (hnd : s.activeTimers.Nodup) :
    (onNetworkChanged s).tokenData = none ∧
    (onNetworkChanged s).balance = none ∧
    (onNetworkChanged s).txBeingSent = none ∧
    (onNetworkChanged s).transactionError = none ∧
    (onNetworkChanged s).networkError = none ∧
    (onNetworkChanged s).pollDataInterval = none ∧
    id ∉ (onNetworkChanged s).activeTimers ∧
    (onNetworkChanged s).myAddress = s.myAddress ∧
    (onNetworkChanged s).token = s.token := by
  refine ⟨rfl, rfl, rfl, rfl, rfl, rfl, ?_, ?_, ?_⟩
  · have hat : (onNetworkChanged s).activeTimers = s.activeTimers.erase id := by
      simp [onNetworkChanged, resetState, stopPollingData, jsClearInterval, hrun]
    rw [hat]
    exact hnd.not_mem_erase
  · simp [onNetworkChanged, resetState, stopPollingData, jsClearInterval, hrun]
  · simp [onNetworkChanged, resetState, stopPollingData, jsClearInterval, hrun]

/-- Witness for C3's amended theorem at the concretely connected state. -/
theorem c3_network_change_resets_all_but_address_witness :
    0 ∉ (onNetworkChanged sConnected).activeTimers :=
  (c3_network_change_resets_all_but_address sConnected 0
    (by decide) (by decide)).2.2.2.2.2.2.1

/-- Claim C4: a transfer whose submission fails with the user-rejection code
4001 settles silently: `transactionError` ends unset (the fresh attempt
cleared it and the `catch` returns before setting it) and `txBeingSent` ends
unset (the `finally` block clears it). -/
theorem c4_user_rejection_is_silent (s : DappState) (toAddr : String)
    (amount : Nat) (e : JsError)
    (h : e.code = some ERROR_CODE_TX_REJECTED_BY_USER) :
    (transferTokens s toAddr amount (TransferEnv.rejected e)).transactionError = none ∧
    (transferTokens s toAddr amount (TransferEnv.rejected e)).txBeingSent = none := by
  simp [transferTokens, dismissTransactionError, h]

/-- Witness for C4: a concrete rejected transfer in a connected session. -/
theorem c4_user_rejection_is_silent_witness :
    (transferTokens sConnected "0xBB" 10
      (TransferEnv.rejected userRejectedErr)).transactionError = none ∧
    (transferTokens sConnected "0xBB" 10
      (TransferEnv.rejected userRejectedErr)).txBeingSent = none :=
  c4_user_rejection_is_silent sConnected "0xBB" 10 userRejectedErr (by decide)

/-- Claim C5, counterexample: a transfer whose receipt has status 1 but whose
immediate follow-up balance read fails ends with `transactionError` set (to
the read's RPC error): the error thrown by `await updateBalance()` inside the
`try` block lands in the same `catch` that records transaction errors. So
"a receipt with status 1 … sets no transaction error" does not hold
unconditionally. -/
theorem c5_counterexample :
    sConnected.transactionError = none ∧
    (transferTokens sConnected "0xBB" 10
      (TransferEnv.submitted "0xfeed" 1 (Except.error rpcErr))).transactionError
      = some rpcErr := by
  decide

/-- Claim C5 (amended): a receipt with status 0 is classified as the failure
`Error("Transaction failed")` — that error (whose `code` is absent, hence not
4001) is recorded in `transactionError` and the pending hash is cleared; a
receipt with status 1 sets no transaction error and clears the pending hash,
provided the immediate follow-up balance refresh succeeds (if that read
fails, its error is recorded instead — see the counterexample). -/
theorem c5_receipt_status_classified (s : DappState) (toAddr : String)
    (amount : Nat) (hash : String) (readRes : Except JsError Nat) :
    ((transferTokens s toAddr amount
        (TransferEnv.submitted hash 0 readRes)).transactionError
        = some transactionFailedError ∧
      (transferTokens s toAddr amount
        (TransferEnv.submitted hash 0 readRes)).txBeingSent = none) ∧
    (∀ b : Nat, readRes = Except.ok b →
      (transferTokens s toAddr amount
        (TransferEnv.submitted hash 1 readRes)).transactionError = none ∧
      (transferTokens s toAddr amount
        (TransferEnv.submitted hash 1 readRes)).txBeingSent = none) := by
  constructor
  · constructor <;>
      simp [transferTokens, dismissTransactionError, transactionFailedError,
        ERROR_CODE_TX_REJECTED_BY_USER]
  · intro b hb
    subst hb
    constructor <;>
      simp [transferTokens, dismissTransactionError, updateBalance]

/-- Witness for C5's amended theorem: the status-1 half at a concrete
successful refresh. -/
theorem c5_receipt_status_classified_witness :
    (transferTokens sConnected "0xBB" 10
      (TransferEnv.submitted "0xfeed" 1 (Except.ok 90))).transactionError = none ∧
    (transferTokens sConnected "0xBB" 10
      (TransferEnv.submitted "0xfeed" 1 (Except.ok 90))).txBeingSent = none :=
  (c5_receipt_status_classified sConnected "0xBB" 10 "0xfeed"
    (Except.ok 90)).2 90 rfl

/-- Claim C6: on every terminal path of `transferTokens` — user rejection
(early `return` in the `catch`), any other submission failure, a status-0
receipt, a confirmed transfer, and even a confirmed transfer whose follow-up
refresh fails — the `finally` block runs `setTxBeingSent(null)`, so the
pending-hash marker is always cleared when the call settles. -/
theorem c6_pending_hash_cleared_on_settle (s : DappState) (toAddr : String)
    (amount : Nat) (env : TransferEnv) :
    (transferTokens s toAddr amount env).txBeingSent = none := rfl

/-- Claim C7: a connect attempt while the wallet reports a network id other
than `"31337"` sets the network error message and returns before
`initialize` runs: the contract-client ref, the token data, the address ref,
the balance, the timer table and the poller ref are untouched, and no wallet
event handlers are registered. -/
theorem c7_wrong_network_rejected (s : DappState) (env : WalletEnv)
    (h : env.networkVersion ≠ HARDHAT_NETWORK_ID) :
    (connectWallet s env).networkError
      = some "Please connect Metamask to Localhost:8545" ∧
    (connectWallet s env).token = s.token ∧
    (connectWallet s env).tokenData = s.tokenData ∧
    (connectWallet s env).myAddress = s.myAddress ∧
    (connectWallet s env).balance = s.balance ∧
    (connectWallet s env).pollDataInterval = s.pollDataInterval ∧
    (connectWallet s env).activeTimers = s.activeTimers ∧
    (connectWallet s env).accountsChangedHandlers = s.accountsChangedHandlers ∧
    (connectWallet s env).networkChangedHandlers = s.networkChangedHandlers := by
  refine ⟨?_, ?_, ?_, ?_, ?_, ?_, ?_, ?_, ?_⟩ <;>
    simp [connectWallet, checkNetwork, h]

/-- Witness for C7: connecting from the initial state on network `"1"`. -/
theorem c7_wrong_network_rejected_witness :
    (connectWallet dappInit envWrongNet).networkError
      = some "Please connect Metamask to Localhost:8545" :=
  (c7_wrong_network_rejected dappInit envWrongNet (by decide)).1

/-- Claim C8: a transfer that confirms with receipt status 1 triggers the
immediate `updateBalance()` before the call settles: the final balance is
exactly the freshly read on-chain value, the pending hash is cleared and no
transaction error is set. -/
theorem c8_confirmed_transfer_refreshes_balance (s : DappState)
    (toAddr : String) (amount : Nat) (hash : String)
    (readRes : Except JsError Nat) (b : Nat) (h : readRes = Except.ok b) :
    (transferTokens s toAddr amount
      (TransferEnv.submitted hash 1 readRes)).balance = some b ∧
    (transferTokens s toAddr amount
      (TransferEnv.submitted hash 1 readRes)).txBeingSent = none ∧
    (transferTokens s toAddr amount
      (TransferEnv.submitted hash 1 readRes)).transactionError = none := by
  subst h
  refine ⟨?_, rfl, ?_⟩ <;>
    simp [transferTokens, dismissTransactionError, updateBalance]

/-- Witness for C8, realising the spec scenario: from the connected state
with balance 100, `transferTokens("0xBB…", 10)` confirming with status 1 and
post-transfer chain balance 90 ends with balance 90, no pending hash, no
transaction error. -/
theorem c8_confirmed_transfer_refreshes_balance_witness :
    sConnected.balance = some 100 ∧
    (transferTokens sConnected "0xBB" 10
      (TransferEnv.submitted "0xabc" 1 (Except.ok 90))).balance = some 90 ∧
    (transferTokens sConnected "0xBB" 10
      (TransferEnv.submitted "0xabc" 1 (Except.ok 90))).txBeingSent = none ∧
    (transferTokens sConnected "0xBB" 10
      (TransferEnv.submitted "0xabc" 1 (Except.ok 90))).transactionError = none :=
  ⟨by decide,
    c8_confirmed_transfer_refreshes_balance sConnected "0xBB" 10 "0xabc"
      (Except.ok 90) 90 rfl⟩

/-- Claim C9: the unmount cleanup runs exactly `stopPollingData()`: the
poller ref is cleared and the referenced timer cancelled, while the
contract-client ref, address, token data, balance, pending hash, both error
fields and the handler counts are left exactly as they were — no reset. -/
theorem c9_unmount_stops_poller_only (s : DappState) :
    (unmountCleanup s).pollDataInterval = none ∧
    (unmountCleanup s).token = s.token ∧
    (unmountCleanup s).myAddress = s.myAddress ∧
    (unmountCleanup s).tokenData = s.tokenData ∧
    (unmountCleanup s).balance = s.balance ∧
    (unmountCleanup s).txBeingSent = s.txBeingSent ∧
    (unmountCleanup s).transactionError = s.transactionError ∧
    (unmountCleanup s).networkError = s.networkError ∧
    (unmountCleanup s).accountsChangedHandlers = s.accountsChangedHandlers ∧
    (unmountCleanup s).networkChangedHandlers = s.networkChangedHandlers ∧
    (∀ id, s.pollDataInterval = some id → s.activeTimers.Nodup →
      id ∉ (unmountCleanup s).activeTimers) := by
  obtain ⟨h1, h2, h3, h4, h5, h6, h7, h8, h9, h10⟩ := stopPollingData_frame s
  exact ⟨h10, h1, h2, h3, h4, h5, h6, h7, h8, h9,
    fun id hid hnd => stopPollingData_kills_ref s id hid hnd⟩

/-- Witness for C9 at the concretely connected state: unmount cancels the
live timer 0. -/
theorem c9_unmount_stops_poller_only_witness :
    0 ∉ (unmountCleanup sConnected).activeTimers :=
  (c9_unmount_stops_poller_only sConnected).2.2.2.2.2.2.2.2.2.2 0
    (by decide) (by decide)

/-- On the accepted network, one `connectWallet` call registers exactly one
more `accountsChanged` handler and one more `networkChanged` handler. -/
theorem connectWallet_adds_one_handler (s : DappState) (env : WalletEnv)
    (h : env.networkVersion = HARDHAT_NETWORK_ID) :
    (connectWallet s env).accountsChangedHandlers
      = s.accountsChangedHandlers + 1 ∧
    (connectWallet s env).networkChangedHandlers
      = s.networkChangedHandlers + 1 := by
  cases hr : env.readRes <;>
    simp [connectWallet, checkNetwork, h, setupDapp, setupEthers, getTokenData,
      startPollingData, jsSetInterval, pollTick, updateBalance, hr]

/-- Claim C10: `connectWallet` registers handlers with `window.ethereum.on`
and never deregisters any, so after `n` successful connects on the accepted
network, `n` `accountsChanged` handlers and `n` `networkChanged` handlers are
registered — each wallet event then invokes `n` handlers. -/
theorem c10_handlers_accumulate (n : Nat) (s : DappState) (env : WalletEnv)
    (h : env.networkVersion = HARDHAT_NETWORK_ID) :
    (connectRepeat n s env).accountsChangedHandlers
      = s.accountsChangedHandlers + n ∧
    (connectRepeat n s env).networkChangedHandlers
      = s.networkChangedHandlers + n := by
  induction n generalizing s with
  | zero => simp [connectRepeat]
  | succ n ih =>
    have hc := connectWallet_adds_one_handler s env h
    have hi := ih (connectWallet s env)
    have hstep : connectRepeat (n + 1) s env
        = connectRepeat n (connectWallet s env) env := rfl
    rw [hstep]
    refine ⟨?_, ?_⟩
    · rw [hi.1, hc.1]; omega
    · rw [hi.2, hc.2]; omega

/-- Witness for C10: two successful connects from the initial state leave two
handlers registered per event kind. -/
theorem c10_handlers_accumulate_witness :
    (connectRepeat 2 dappInit envGood).accountsChangedHandlers
      = dappInit.accountsChangedHandlers + 2 ∧
    (connectRepeat 2 dappInit envGood).networkChangedHandlers
      = dappInit.networkChangedHandlers + 2 :=
  c10_handlers_accumulate 2 dappInit envGood (by decide)

end Dapp
